import Mathlib

/-!
Shallow embedding of the Orders microservice (`src/orders/orders.service.ts`
together with the Prisma schema) used to check the natural-language
specification against the code.

Conventions of the embedding:
* JavaScript numbers are modelled as exact rationals (`ℚ`), integer-typed
  schema fields as `ℤ`/`ℕ`.
* The Prisma store is a pure value (`Db`): `order.update` with a `where` on
  the id either replaces the matching record or, when no record matches,
  fails with the Prisma `P2025` error (`recordNotFound`), exactly as the
  Prisma client throws.  A nested `create` on the one-to-one
  `OrderReceipt` relation fails with a unique-constraint violation
  (`P2002`, `uniqueViolation`) when a receipt for the order already
  exists, and the whole nested write is atomic, so nothing is persisted.
* `client.emit` is modelled by accumulating events, `LOGGER.log/error` by
  accumulating log entries, and a thrown exception by an `Except.error`
  result; a method returns an `OpResult` packaging the store after the
  call, the emitted events, the log entries and the returned value or
  error.
-/

namespace OrdersMS

/-- Order lifecycle status, embedding the Prisma `OrderStatus` enum. -/
inductive OrderStatus where
  | PENDING
  | CONFIRMED
  | PREPARING
  | READY_FOR_DELIVERY
  | OUT_FOR_DELIVERY
  | DELIVERED
  | CANCELLED
  | FAILED
deriving DecidableEq

/-- Printable name of a status, as the service interpolates it into the
invalid-transition error message. -/
def statusName : OrderStatus → String
  | .PENDING => "PENDING"
  | .CONFIRMED => "CONFIRMED"
  | .PREPARING => "PREPARING"
  | .READY_FOR_DELIVERY => "READY_FOR_DELIVERY"
  | .OUT_FOR_DELIVERY => "OUT_FOR_DELIVERY"
  | .DELIVERED => "DELIVERED"
  | .CANCELLED => "CANCELLED"
  | .FAILED => "FAILED"

/-- The `validTransitions` table of `OrdersService` (orders.service.ts,
lines 37-50), embedded as a total function on statuses. -/
def validTransitions : OrderStatus → List OrderStatus
  | .PENDING => [.CONFIRMED, .CANCELLED, .FAILED]
  | .CONFIRMED => [.PREPARING, .CANCELLED]
  | .PREPARING => [.READY_FOR_DELIVERY]
  | .READY_FOR_DELIVERY => [.OUT_FOR_DELIVERY]
  | .OUT_FOR_DELIVERY => [.DELIVERED, .FAILED]
  | .DELIVERED => []
  | .CANCELLED => []
  | .FAILED => []

/-- An order item (Prisma `OrderItem` without the surrogate id, which none
of the verified operations reads). -/
structure OrderItem where
  dishId : String
  name : String
  quantity : ℤ
  price : ℚ
deriving DecidableEq

/-- The Prisma `Order` record. -/
structure Order where
  id : String
  totalAmount : ℚ
  status : OrderStatus
  deliveryTime : ℤ
  paid : Bool
  stripeChargeId : Option String
  restaurantId : String
  restaurantName : String
  customerId : String
  pin_code : String
  courierId : String
  items : List OrderItem
deriving DecidableEq

/-- The Prisma `OrderReceipt` record (`orderId` carries a `@unique`
constraint in the schema). -/
structure OrderReceipt where
  orderId : String
  receiptUrl : String
deriving DecidableEq

/-- The `CreateOrderDto` with `deliveryFee` and `useLoyaltyPoints`, as in
the current dto (part_000, lines 97-117). -/
structure CreateOrderDto where
  customerId : String
  restaurantId : String
  restaurantName : String
  items : List OrderItem
  deliveryFee : ℚ
  useLoyaltyPoints : Bool
deriving DecidableEq

/-- The `PaidOrderDto`. -/
structure PaidOrderDto where
  stripePaymentId : String
  orderId : String
  receiptUrl : String
deriving DecidableEq

/-- The datastore: the `Order` collection and the `OrderReceipt`
collection. -/
structure Db where
  orders : List Order
  receipts : List OrderReceipt
deriving DecidableEq

/-- Prisma `order.findUnique` on the id. -/
def Db.findOrder (db : Db) (id : String) : Option Order :=
  db.orders.find? (fun o => o.id == id)

/-- Replace the record with the given id (the write part of a successful
Prisma `order.update`). -/
def Db.setOrder (db : Db) (id : String) (o2 : Order) : Db :=
  { db with orders := db.orders.map (fun o => if o.id == id then o2 else o) }

/-- Number of stored receipts whose `orderId` is the given id. -/
def Db.receiptCount (db : Db) (orderId : String) : ℕ :=
  (db.receipts.filter (fun rc => rc.orderId == orderId)).length

/-- Whether some stored receipt references the order (the situation in
which a nested receipt `create` violates the `@unique` constraint). -/
def Db.hasReceipt (db : Db) (orderId : String) : Bool :=
  db.receipts.any (fun rc => rc.orderId == orderId)

/-- Failures a service method can surface: a thrown `RpcException`
(message and HTTP status), the Prisma `P2025` record-not-found error, the
Prisma `P2002` unique-constraint error, and a JavaScript `TypeError` from
dereferencing `null`. -/
inductive ServiceError where
  | rpc (message : String) (status : ℕ)
  | recordNotFound
  | uniqueViolation
  | nullDereference
deriving DecidableEq

/-- Events emitted through `client.emit`, with the payload fields the
service passes. -/
inductive Event where
  | order_created (dto : CreateOrderDto) (orderId : String)
  | order_status_updated (orderId : String) (restaurantId : String)
      (newStatus : OrderStatus)
  | order_ready_for_delivery (orderId : String) (restaurantId : String)
      (restaurantName : String) (customerId : String) (items : List OrderItem)
  | order_paid (order : Order)
  | courier_assigned (order : Order) (courierId : String) (pin : String)
  | order_delivered (orderId : String) (courierId : String)
      (restaurantId : String) (totalAmount : ℚ) (customerId : String)
deriving DecidableEq

/-- A `LOGGER.log` or `LOGGER.error` line (message plus the detail
argument). -/
inductive LogEntry where
  | errorLog (message : String) (detail : String)
  | infoLog (message : String) (detail : String)
deriving DecidableEq

deriving instance DecidableEq for Except

/-- Outcome of one service method: the store after the call, emitted
events, log lines, and the returned value or thrown error. -/
structure OpResult (α : Type) where
  db : Db
  events : List Event
  logs : List LogEntry
  result : Except ServiceError α
deriving DecidableEq

/-- Embedding of `findOneOrder` (orders.service.ts, lines 569-582): looks
the order up, logs `Order not found:` and returns `null` when absent,
logs `Order found:` and returns it when present. -/
def findOneOrder (db : Db) (id : String) : Option Order × List LogEntry :=
  match db.findOrder id with
  | none => (none, [LogEntry.errorLog "Order not found:" id])
  | some o => (some o, [LogEntry.infoLog "Order found:" o.id])

/-- Embedding of `createOrder` (orders.service.ts, lines 57-98): sums
`price * quantity` over the items with `reduce`, adds `deliveryFee`
unless `useLoyaltyPoints`, persists the order with the schema defaults
(`status=PENDING`, `paid=false`, `pin_code=""`, `courierId=""`,
`deliveryTime=20`, no charge id), emits `order_created` and returns the
new id.  The fresh Mongo ObjectId is the `newId` parameter. -/
def createOrder (db : Db) (newId : String) (dto : CreateOrderDto) :
    OpResult String :=
  let totalAmount :=
    dto.items.foldl (fun sum item => sum + item.price * (item.quantity : ℚ)) 0
  let totalAmountWithDelivery :=
    if dto.useLoyaltyPoints then totalAmount else totalAmount + dto.deliveryFee
  let order : Order :=
    { id := newId
      totalAmount := totalAmountWithDelivery
      status := .PENDING
      deliveryTime := 20
      paid := false
      stripeChargeId := none
      restaurantId := dto.restaurantId
      restaurantName := dto.restaurantName
      customerId := dto.customerId
      pin_code := ""
      courierId := ""
      items := dto.items }
  { db := { db with orders := db.orders ++ [order] }
    events := [Event.order_created dto newId]
    logs := []
    result := .ok newId }

/-- Embedding of `updateOrderStatus` (orders.service.ts, lines 107-158):
`NotFound` when the order does not exist, an invalid-transition
`RpcException` naming both statuses when the target is not in the
`validTransitions` entry for the current status, otherwise the status is
persisted, `order_status_updated` is emitted, and additionally
`order_ready_for_delivery` when the new status is
`READY_FOR_DELIVERY`. -/
def updateOrderStatus (db : Db) (orderId : String) (newStatus : OrderStatus) :
    OpResult Order :=
  match db.findOrder orderId with
  | none => { db := db, events := [], logs := [],
              result := .error (.rpc "Order not found" 404) }
  | some o =>
    if newStatus ∈ validTransitions o.status then
      let updatedOrder := { o with status := newStatus }
      let db2 := db.setOrder orderId updatedOrder
      let readyEvents :=
        if updatedOrder.status = OrderStatus.READY_FOR_DELIVERY then
          [Event.order_ready_for_delivery updatedOrder.id
            updatedOrder.restaurantId updatedOrder.restaurantName
            updatedOrder.customerId updatedOrder.items]
        else []
      { db := db2
        events := Event.order_status_updated updatedOrder.id
            updatedOrder.restaurantId updatedOrder.status :: readyEvents
        logs := []
        result := .ok updatedOrder }
    else
      { db := db, events := [], logs := [],
        result := .error (.rpc ("Cannot transition from " ++
          statusName o.status ++ " to " ++ statusName newStatus) 404) }

/-- Embedding of `paidOrder` (orders.service.ts, lines 588-614): logs,
calls `findOneOrder` (result ignored), then runs `order.update` with the
nested `OrderReceipt.create`.  The update throws Prisma `P2025` when the
order does not exist; the nested receipt `create` throws a
unique-constraint violation when the order already has a receipt, and the
atomic nested write then persists nothing.  On success the order becomes
`CONFIRMED`, `paid=true`, the charge id is stored, the receipt is
created, and `order_paid` is emitted. -/
def paidOrder (db : Db) (dto : PaidOrderDto) : OpResult Unit :=
  let found := findOneOrder db dto.orderId
  let logsFound := LogEntry.infoLog "Payment succeeded:" dto.orderId ::
    found.2 ++ [LogEntry.infoLog "Order found:" dto.orderId]
  match db.findOrder dto.orderId with
  | none => { db := db, events := [], logs := logsFound,
              result := .error .recordNotFound }
  | some o =>
    if db.hasReceipt dto.orderId then
      { db := db, events := [], logs := logsFound,
        result := .error .uniqueViolation }
    else
      let paidOrderRec :=
        { o with
          status := OrderStatus.CONFIRMED
          paid := true
          stripeChargeId := some dto.stripePaymentId }
      let db2 :=
        { db.setOrder dto.orderId paidOrderRec with
          receipts := db.receipts ++
            [{ orderId := dto.orderId, receiptUrl := dto.receiptUrl }] }
      { db := db2
        events := [Event.order_paid paidOrderRec]
        logs := logsFound ++ [LogEntry.infoLog "Order paid:" dto.orderId]
        result := .ok () }

/-- Digit character for a decimal digit value. -/
def digitChar (d : ℕ) : Char := Char.ofNat (48 + d)

/-- Decimal representation of a natural number, embedding JavaScript
`Number.prototype.toString()` for the integers the service feeds it
(positive values; most significant digit first). -/
def natToDecimalString (n : ℕ) : String :=
  String.mk (((Nat.digits 10 n).reverse).map digitChar)

/-- Numeric part of `generatePin` (orders.service.ts, lines 671-673):
`Math.floor(1000 + Math.random() * 9000)`, with the value of the
randomness source made an explicit parameter and JavaScript numbers
modelled as exact rationals. -/
def generatePinNat (r : ℚ) : ℕ := (⌊(1000 : ℚ) + r * 9000⌋).toNat

/-- Embedding of `generatePin`: the decimal string of
`Math.floor(1000 + r * 9000)`. -/
def generatePin (r : ℚ) : String := natToDecimalString (generatePinNat r)

/-- Embedding of `courierAssigned` (orders.service.ts, lines 651-665):
calls `findOneOrder` (result ignored), generates the PIN, then runs
`order.update` setting `courierId` and `pin_code` — which throws Prisma
`P2025` when the order does not exist — and emits `courier_assigned`. -/
def courierAssigned (db : Db) (r : ℚ) (orderId : String)
    (courierId : String) : OpResult Order :=
  let found := findOneOrder db orderId
  let pin := generatePin r
  match db.findOrder orderId with
  | none => { db := db, events := [], logs := found.2,
              result := .error .recordNotFound }
  | some o =>
    let o2 := { o with courierId := courierId, pin_code := pin }
    { db := db.setOrder orderId o2
      events := [Event.courier_assigned o2 courierId pin]
      logs := found.2
      result := .ok o2 }

/-- Embedding of `verifyOrderPin` (orders.service.ts, lines 681-700):
loads the order via `findOneOrder` (dereferencing the result without a
null check, hence a `TypeError` on a missing order), compares the stored
`pin_code` with the supplied pin by exact string equality; on a match
persists `DELIVERED`, emits one `order_delivered` with order id, courier
id, restaurant id, total amount and customer id, and returns `true`; on a
mismatch changes nothing, emits nothing and returns `false`. -/
def verifyOrderPin (db : Db) (orderId : String) (pin : String) :
    OpResult Bool :=
  let found := findOneOrder db orderId
  match found.1 with
  | none => { db := db, events := [], logs := found.2,
              result := .error .nullDereference }
  | some o =>
    if o.pin_code = pin then
      { db := db.setOrder orderId { o with status := OrderStatus.DELIVERED }
        events := [Event.order_delivered orderId o.courierId o.restaurantId
          o.totalAmount o.customerId]
        logs := found.2
        result := .ok true }
    else
      { db := db, events := [], logs := found.2, result := .ok false }

/-- Embedding of `removeOrder` (orders.service.ts, lines 708-729): throws
a `NotFound` `RpcException` when the order does not exist, otherwise sets
`status=CANCELLED` unconditionally (no transition-table check) and emits
`order_status_updated` with the updated order's id, the original order's
restaurant id and the new status. -/
def removeOrder (db : Db) (id : String) : OpResult Order :=
  let found := findOneOrder db id
  match found.1 with
  | none => { db := db, events := [], logs := found.2,
              result := .error (.rpc "Order not found" 404) }
  | some o =>
    let updatedOrder := { o with status := OrderStatus.CANCELLED }
    { db := db.setOrder id updatedOrder
      events := [Event.order_status_updated updatedOrder.id o.restaurantId
        updatedOrder.status]
      logs := found.2
      result := .ok updatedOrder }

/-- Modelled from the spec: the per-item validation of `OrderItemDto`,
whose source file is not among the provided sources (only the
`@ValidateNested` reference to it in `CreateOrderDto` is).  Per the
spec each item must have a positive quantity and a non-negative price. -/
def orderItemDtoOk (item : OrderItem) : Bool :=
  (0 < item.quantity) && (0 ≤ item.price)

/-- Validation of the `items` field of `CreateOrderDto` (part_000, lines
107-110): `@IsArray()` holds by typing, and
`@ValidateNested(\x7b each: true \x7d)` validates each element; no
decorator constrains the array to be non-empty. -/
def validateCreateOrderItems (dto : CreateOrderDto) : Bool :=
  dto.items.all orderItemDtoOk

/-- Sum of `price * quantity` over a list of items. -/
def itemsTotal (items : List OrderItem) : ℚ :=
  (items.map (fun item => item.price * (item.quantity : ℚ))).sum

/-- The empty store. -/
def emptyDb : Db := { orders := [], receipts := [] }

/-- A sample pending order used to instantiate general theorems. -/
def sampleOrder : Order :=
  { id := "o1", totalAmount := 28, status := .PENDING, deliveryTime := 20,
    paid := false, stripeChargeId := none, restaurantId := "r1",
    restaurantName := "Resto", customerId := "c1", pin_code := "",
    courierId := "", items := [] }

/-- A store holding just the sample pending order. -/
def sampleDb : Db := { orders := [sampleOrder], receipts := [] }

/-- A sample order in the terminal status `DELIVERED`. -/
def deliveredOrder : Order :=
  { sampleOrder with id := "o2", status := .DELIVERED }

/-- A store holding just the delivered order. -/
def terminalDb : Db := { orders := [deliveredOrder], receipts := [] }

/-- A sample order with an assigned courier and a generated PIN. -/
def pinnedOrder : Order :=
  { sampleOrder with
    id := "o3"
    status := .OUT_FOR_DELIVERY
    courierId := "courier-1"
    pin_code := "1234" }

/-- A store holding just the pinned order. -/
def pinnedDb : Db := { orders := [pinnedOrder], receipts := [] }

/-- The items of the spec's worked `createOrder` example. -/
def c2Items : List OrderItem :=
  [{ dishId := "d1", name := "dish one", quantity := 2, price := 10 },
   { dishId := "d2", name := "dish two", quantity := 1, price := 5 }]

/-- The worked example's dto with `useLoyaltyPoints = false`. -/
def c2DtoNoLoyalty : CreateOrderDto :=
  { customerId := "c1", restaurantId := "r1", restaurantName := "Resto",
    items := c2Items, deliveryFee := 3, useLoyaltyPoints := false }

/-- The worked example's dto with `useLoyaltyPoints = true`. -/
def c2DtoLoyalty : CreateOrderDto :=
  { c2DtoNoLoyalty with useLoyaltyPoints := true }

/-- A dto whose items array is empty. -/
def emptyItemsDto : CreateOrderDto :=
  { customerId := "c1", restaurantId := "r1", restaurantName := "Resto",
    items := [], deliveryFee := 3, useLoyaltyPoints := false }

/-- A missing-order payment notification. -/
def missingPaidDto : PaidOrderDto :=
  { stripePaymentId := "pi_1", orderId := "missing", receiptUrl := "https://x/r" }

/-- The record update `paidOrder` applies to the order: `CONFIRMED`,
`paid=true`, charge id stored. -/
def paidUpdate (o : Order) (sp : String) : Order :=
  { o with
    status := OrderStatus.CONFIRMED
    paid := true
    stripeChargeId := some sp }

/-! ### Store lemmas -/

/-- Replacing the record whose id matches leaves `find?` on that id
returning the replacement, and `none` stays `none`. -/
theorem find?_map_setOrder (l : List Order) (id : String) (o2 : Order)
    (hid : o2.id = id) :
    ((l.map (fun o => if o.id == id then o2 else o)).find?
        (fun o => o.id == id)) =
      (l.find? (fun o => o.id == id)).map (fun _ => o2) := by
  induction l with
  | nil => rfl
  | cons x xs ih =>
    by_cases hx : x.id == id
    · simp [List.find?, hx, hid]
    · simp only [List.map_cons, List.find?]
      simp only [hx, if_neg (by simp [hx] : ¬ (x.id == id) = true)]
      simpa [hx] using ih

/-- A found order's id is the id it was looked up by. -/
theorem findOrder_id (db : Db) (id : String) (o : Order)
    (h : db.findOrder id = some o) : o.id = id := by
  have := List.find?_some h
  simpa using this

/-- After `setOrder` on a present id, `findOrder` returns the
replacement. -/
theorem findOrder_setOrder (db : Db) (id : String) (o o2 : Order)
    (h : db.findOrder id = some o) (hid : o2.id = id) :
    (db.setOrder id o2).findOrder id = some o2 := by
  simp only [Db.findOrder, Db.setOrder] at h ⊢
  rw [find?_map_setOrder _ _ _ hid, h]
  rfl

/-- A store with no receipt for an order counts zero receipts for it. -/
theorem receiptCount_eq_zero (db : Db) (oid : String)
    (hno : db.hasReceipt oid = false) : db.receiptCount oid = 0 := by
  simp only [Db.hasReceipt] at hno
  rw [Bool.eq_false_iff] at hno
  simp only [ne_eq, List.any_eq_true, not_exists, not_and] at hno
  simp only [Db.receiptCount, List.length_eq_zero, List.filter_eq_nil_iff]
  intro rc hrc
  simpa using hno rc hrc

/-- The `foldl` the service uses to sum item subtotals equals the starting
accumulator plus the map-sum. -/
theorem foldl_add_eq_sum (l : List OrderItem) (a : ℚ) :
    l.foldl (fun sum item => sum + item.price * (item.quantity : ℚ)) a =
      a + itemsTotal l := by
  induction l generalizing a with
  | nil => simp [itemsTotal]
  | cons x xs ih => simp [itemsTotal, ih, List.sum_cons]; ring

/-- On a matching PIN, `verifyOrderPin` returns `true`, persists
`DELIVERED`, and emits exactly one `order_delivered` with the five payload
fields. -/
theorem verifyOrderPin_match (db : Db) (orderId pin : String) (o : Order)
    (hfind : db.findOrder orderId = some o) (hpin : o.pin_code = pin) :
    (verifyOrderPin db orderId pin).result = .ok true ∧
    (verifyOrderPin db orderId pin).db.findOrder orderId =
      some { o with status := OrderStatus.DELIVERED } ∧
    (verifyOrderPin db orderId pin).events =
      [Event.order_delivered orderId o.courierId o.restaurantId
        o.totalAmount o.customerId] := by
  have hid : o.id = orderId := findOrder_id db orderId o hfind
  simp only [verifyOrderPin, findOneOrder, hfind]
  rw [if_pos hpin]
  refine ⟨rfl, ?_, rfl⟩
  exact findOrder_setOrder db orderId o _ hfind hid

/-- On a mismatching PIN, `verifyOrderPin` returns `false`, changes no
state and emits nothing. -/
theorem verifyOrderPin_mismatch (db : Db) (orderId pin : String) (o : Order)
    (hfind : db.findOrder orderId = some o) (hpin : o.pin_code ≠ pin) :
    (verifyOrderPin db orderId pin).result = .ok false ∧
    (verifyOrderPin db orderId pin).db = db ∧
    (verifyOrderPin db orderId pin).events = [] := by
  simp only [verifyOrderPin, findOneOrder, hfind]
  rw [if_neg hpin]
  exact ⟨rfl, rfl, rfl⟩

/-! ### Claim theorems -/

/-- C1: for an existing order, `updateOrderStatus` with a target outside
the allowed-edge set of the current status fails with an error whose
message names both the current and the requested status and leaves the
store (hence the order's status) unchanged; with a target inside the set
the new status is persisted; the terminal statuses `DELIVERED`,
`CANCELLED` and `FAILED` have empty edge sets. -/
theorem updateOrderStatus_transition_guard (db : Db) (orderId : String)
    (o : Order) (target : OrderStatus)
    (hfind : db.findOrder orderId = some o) :
    (target ∉ validTransitions o.status →
      (updateOrderStatus db orderId target).result =
        .error (.rpc ("Cannot transition from " ++ statusName o.status ++
          " to " ++ statusName target) 404) ∧
      (updateOrderStatus db orderId target).db = db) ∧
    (target ∈ validTransitions o.status →
      (updateOrderStatus db orderId target).result =
        .ok { o with status := target } ∧
      (updateOrderStatus db orderId target).db.findOrder orderId =
        some { o with status := target }) ∧
    validTransitions .DELIVERED = [] ∧ validTransitions .CANCELLED = [] ∧
    validTransitions .FAILED = [] := by
  have hid : o.id = orderId := findOrder_id db orderId o hfind
  refine ⟨?_, ?_, rfl, rfl, rfl⟩
  · intro hmem
    simp only [updateOrderStatus, hfind]
    rw [if_neg hmem]
    exact ⟨rfl, rfl⟩
  · intro hmem
    simp only [updateOrderStatus, hfind]
    rw [if_pos hmem]
    refine ⟨rfl, ?_⟩
    exact findOrder_setOrder db orderId o _ hfind hid

/-- Witness for C1: on the sample pending order, requesting `DELIVERED`
is outside the edge set of `PENDING`, fails with the message naming both
statuses, and leaves the store unchanged. -/
theorem updateOrderStatus_transition_guard_witness :
    sampleDb.findOrder "o1" = some sampleOrder ∧
    OrderStatus.DELIVERED ∉ validTransitions sampleOrder.status ∧
    ((updateOrderStatus sampleDb "o1" OrderStatus.DELIVERED).result =
      .error (.rpc ("Cannot transition from " ++ statusName sampleOrder.status ++
        " to " ++ statusName OrderStatus.DELIVERED) 404) ∧
     (updateOrderStatus sampleDb "o1" OrderStatus.DELIVERED).db = sampleDb) :=
  ⟨rfl, by decide,
    (updateOrderStatus_transition_guard sampleDb "o1" sampleOrder
      OrderStatus.DELIVERED rfl).1 (by decide)⟩

/-- C2, counterexample: with the spec's worked example
(items `[(price 10, qty 2), (price 5, qty 1)]`, `deliveryFee 3`), the
stored `totalAmount` is `28` when `useLoyaltyPoints=false` (not the
claimed `25`) and `25` when `useLoyaltyPoints=true` (not the claimed
`22`): the code adds the delivery fee in the `false` case and the item
sum is `25` in the `true` case. -/
theorem createOrder_worked_example_cex :
    ((createOrder emptyDb "o1" c2DtoNoLoyalty).db.findOrder "o1").map
      Order.totalAmount = some 28 ∧
    ((createOrder emptyDb "o1" c2DtoLoyalty).db.findOrder "o1").map
      Order.totalAmount = some 25 ∧
    (some (28 : ℚ) ≠ some (25 : ℚ)) ∧ (some (25 : ℚ) ≠ some (22 : ℚ)) := by
  refine ⟨?_, ?_, by norm_num, by norm_num⟩
  · norm_num [createOrder, Db.findOrder, emptyDb, c2DtoNoLoyalty, c2Items]
  · norm_num [createOrder, Db.findOrder, emptyDb, c2DtoLoyalty,
      c2DtoNoLoyalty, c2Items]

/-- C2, amended: the worked example stores `totalAmount=28` with
`useLoyaltyPoints=false` and `totalAmount=25` with
`useLoyaltyPoints=true`. -/
theorem createOrder_worked_example_amended :
    ((createOrder emptyDb "o1" c2DtoNoLoyalty).db.findOrder "o1").map
      Order.totalAmount = some 28 ∧
    ((createOrder emptyDb "o1" c2DtoLoyalty).db.findOrder "o1").map
      Order.totalAmount = some 25 := by
  constructor
  · norm_num [createOrder, Db.findOrder, emptyDb, c2DtoNoLoyalty, c2Items]
  · norm_num [createOrder, Db.findOrder, emptyDb, c2DtoLoyalty,
      c2DtoNoLoyalty, c2Items]

/-- C3: evaluation at the failing input.  On a store with no matching
order, `paidOrder` and `courierAssigned` do log the missing order (via
`findOneOrder`), but the subsequent unconditional Prisma `order.update`
throws record-not-found, so the failure surfaces instead of the operation
continuing. -/
theorem missing_order_logs_then_throws :
    (LogEntry.errorLog "Order not found:" "missing" ∈
        (paidOrder emptyDb missingPaidDto).logs ∧
      (paidOrder emptyDb missingPaidDto).result = .error .recordNotFound) ∧
    (LogEntry.errorLog "Order not found:" "missing" ∈
        (courierAssigned emptyDb 0 "missing" "courier-1").logs ∧
      (courierAssigned emptyDb 0 "missing" "courier-1").result =
        .error .recordNotFound) := by
  refine ⟨⟨?_, ?_⟩, ⟨?_, ?_⟩⟩ <;> decide

/-- C4: for an existing order with no receipt yet, calling `paidOrder`
twice with its id leaves exactly one `OrderReceipt` for the order (the
second nested receipt create violates the unique-per-order constraint and
the atomic update persists nothing), with `paid=true` and
`stripeChargeId` deterministically the first-applied charge reference. -/
theorem paidOrder_single_receipt (db : Db) (oid : String) (o : Order)
    (sp1 url1 sp2 url2 : String)
    (hfind : db.findOrder oid = some o) (hno : db.hasReceipt oid = false) :
    ((paidOrder (paidOrder db ⟨sp1, oid, url1⟩).db
        ⟨sp2, oid, url2⟩).db.receiptCount oid = 1) ∧
    (∃ o2, (paidOrder (paidOrder db ⟨sp1, oid, url1⟩).db
        ⟨sp2, oid, url2⟩).db.findOrder oid = some o2 ∧
      o2.paid = true ∧ o2.stripeChargeId = some sp1 ∧
      o2.status = OrderStatus.CONFIRMED) ∧
    ((paidOrder (paidOrder db ⟨sp1, oid, url1⟩).db ⟨sp2, oid, url2⟩).result =
      .error .uniqueViolation) := by
  have hid : o.id = oid := findOrder_id db oid o hfind
  have hcount0 : db.receiptCount oid = 0 := receiptCount_eq_zero db oid hno
  have h1 : (paidOrder db ⟨sp1, oid, url1⟩).db =
      { db.setOrder oid (paidUpdate o sp1) with
        receipts := db.receipts ++ [{ orderId := oid, receiptUrl := url1 }] } := by
    unfold paidOrder
    rw [hfind]
    simp only [hno]
    rfl
  obtain ⟨db1, hg⟩ : ∃ x, (paidOrder db ⟨sp1, oid, url1⟩).db = x := ⟨_, rfl⟩
  rw [hg] at h1
  rw [hg]
  have hfd1 : db1.findOrder oid = some (paidUpdate o sp1) := by
    rw [h1]
    show (db.setOrder oid (paidUpdate o sp1)).findOrder oid = _
    exact findOrder_setOrder db oid o _ hfind (by simpa [paidUpdate] using hid)
  have hr1 : db1.hasReceipt oid = true := by
    rw [h1]
    simp [Db.hasReceipt, List.any_append]
  have h2 : (paidOrder db1 ⟨sp2, oid, url2⟩).db = db1 := by
    unfold paidOrder
    rw [hfd1]
    simp [hr1]
  have h3 : (paidOrder db1 ⟨sp2, oid, url2⟩).result =
      .error .uniqueViolation := by
    unfold paidOrder
    rw [hfd1]
    simp [hr1]
  refine ⟨?_, ⟨paidUpdate o sp1, ?_, rfl, rfl, rfl⟩, h3⟩
  · rw [h2, h1]
    show ((db.receipts ++
        [({ orderId := oid, receiptUrl := url1 } : OrderReceipt)]).filter
      (fun rc : OrderReceipt => rc.orderId == oid)).length = 1
    rw [List.filter_append]
    simp only [Db.receiptCount] at hcount0
    simp [List.length_append, hcount0]
  · rw [h2]; exact hfd1

/-- Witness for C4: two payment notifications for the sample order leave
one receipt, `paid=true` and the first charge id. -/
theorem paidOrder_single_receipt_witness :
    sampleDb.findOrder "o1" = some sampleOrder ∧
    sampleDb.hasReceipt "o1" = false ∧
    (((paidOrder (paidOrder sampleDb ⟨"ch_1", "o1", "https://r/1"⟩).db
        ⟨"ch_2", "o1", "https://r/2"⟩).db.receiptCount "o1" = 1) ∧
     (∃ o2, (paidOrder (paidOrder sampleDb ⟨"ch_1", "o1", "https://r/1"⟩).db
        ⟨"ch_2", "o1", "https://r/2"⟩).db.findOrder "o1" = some o2 ∧
       o2.paid = true ∧ o2.stripeChargeId = some "ch_1" ∧
       o2.status = OrderStatus.CONFIRMED) ∧
     ((paidOrder (paidOrder sampleDb ⟨"ch_1", "o1", "https://r/1"⟩).db
        ⟨"ch_2", "o1", "https://r/2"⟩).result = .error .uniqueViolation)) :=
  ⟨rfl, rfl, paidOrder_single_receipt sampleDb "o1" sampleOrder
    "ch_1" "https://r/1" "ch_2" "https://r/2" rfl rfl⟩

/-- C5: `removeOrder` cancels any existing order unconditionally —
whatever its current status, including terminal ones — persisting
`CANCELLED` and emitting `order_status_updated`, and fails with
`NotFound` leaving the store untouched when the order does not exist. -/
theorem removeOrder_unconditional_cancel (db : Db) (id : String) :
    (∀ o, db.findOrder id = some o →
      (removeOrder db id).result =
        .ok { o with status := OrderStatus.CANCELLED } ∧
      (removeOrder db id).db.findOrder id =
        some { o with status := OrderStatus.CANCELLED } ∧
      (removeOrder db id).events =
        [Event.order_status_updated o.id o.restaurantId
          OrderStatus.CANCELLED]) ∧
    (db.findOrder id = none →
      (removeOrder db id).result = .error (.rpc "Order not found" 404) ∧
      (removeOrder db id).db = db ∧ (removeOrder db id).events = []) := by
  constructor
  · intro o hfind
    have hid : o.id = id := findOrder_id db id o hfind
    refine ⟨?_, ?_, ?_⟩
    · simp only [removeOrder, findOneOrder, hfind]
    · simp only [removeOrder, findOneOrder, hfind]
      exact findOrder_setOrder db id o _ hfind hid
    · simp only [removeOrder, findOneOrder, hfind]
  · intro hnone
    refine ⟨?_, ?_, ?_⟩ <;> simp only [removeOrder, findOneOrder, hnone]

/-- Witness for C5: cancelling an order already in the terminal status
`DELIVERED` succeeds, persists `CANCELLED` and emits the event. -/
theorem removeOrder_unconditional_cancel_witness :
    terminalDb.findOrder "o2" = some deliveredOrder ∧
    deliveredOrder.status = OrderStatus.DELIVERED ∧
    ((removeOrder terminalDb "o2").result =
      .ok { deliveredOrder with status := OrderStatus.CANCELLED } ∧
     (removeOrder terminalDb "o2").db.findOrder "o2" =
      some { deliveredOrder with status := OrderStatus.CANCELLED } ∧
     (removeOrder terminalDb "o2").events =
      [Event.order_status_updated deliveredOrder.id
        deliveredOrder.restaurantId OrderStatus.CANCELLED]) :=
  ⟨rfl, rfl, (removeOrder_unconditional_cancel terminalDb "o2").1
    deliveredOrder rfl⟩

/-- C6: for an existing order, `verifyOrderPin` with a pin equal to the
stored `pin_code` persists `DELIVERED`, emits exactly one
`order_delivered` carrying order id, courier id, restaurant id, total
amount and customer id, and returns `true`; with any other pin it changes
no state, emits no event and returns `false`. -/
theorem verifyOrderPin_pin_gate (db : Db) (orderId pin : String) (o : Order)
    (hfind : db.findOrder orderId = some o) :
    (o.pin_code = pin →
      (verifyOrderPin db orderId pin).result = .ok true ∧
      (verifyOrderPin db orderId pin).db.findOrder orderId =
        some { o with status := OrderStatus.DELIVERED } ∧
      (verifyOrderPin db orderId pin).events =
        [Event.order_delivered orderId o.courierId o.restaurantId
          o.totalAmount o.customerId]) ∧
    (o.pin_code ≠ pin →
      (verifyOrderPin db orderId pin).result = .ok false ∧
      (verifyOrderPin db orderId pin).db = db ∧
      (verifyOrderPin db orderId pin).events = []) :=
  ⟨fun hpin => verifyOrderPin_match db orderId pin o hfind hpin,
   fun hpin => verifyOrderPin_mismatch db orderId pin o hfind hpin⟩

/-- Witness for C6: the pinned sample order with the correct pin `1234`
is delivered and the single event carries the five fields. -/
theorem verifyOrderPin_pin_gate_witness :
    pinnedDb.findOrder "o3" = some pinnedOrder ∧
    pinnedOrder.pin_code = "1234" ∧
    ((verifyOrderPin pinnedDb "o3" "1234").result = .ok true ∧
     (verifyOrderPin pinnedDb "o3" "1234").db.findOrder "o3" =
      some { pinnedOrder with status := OrderStatus.DELIVERED } ∧
     (verifyOrderPin pinnedDb "o3" "1234").events =
      [Event.order_delivered "o3" pinnedOrder.courierId
        pinnedOrder.restaurantId pinnedOrder.totalAmount
        pinnedOrder.customerId]) :=
  ⟨rfl, rfl, (verifyOrderPin_pin_gate pinnedDb "o3" "1234" pinnedOrder rfl).1 rfl⟩

/-- C7 (implicit): `createOrder` stores the order with the schema-default
empty `pin_code` and empty `courierId`; and for any stored order whose
`pin_code` is the empty string, `verifyOrderPin` with the empty string as
the supplied pin matches, returns `true`, persists `DELIVERED` from
whatever the current status is, and emits `order_delivered` — delivery
confirmation is not gated on a courier having been assigned or a PIN
having been generated. -/
theorem createOrder_default_pin_allows_delivery (db : Db) (newId : String)
    (dto : CreateOrderDto) :
    (∃ o, (createOrder db newId dto).db.orders = db.orders ++ [o] ∧
      o.pin_code = "" ∧ o.courierId = "" ∧ o.status = OrderStatus.PENDING) ∧
    (∀ db2 oid o2, db2.findOrder oid = some o2 → o2.pin_code = "" →
      (verifyOrderPin db2 oid "").result = .ok true ∧
      (verifyOrderPin db2 oid "").db.findOrder oid =
        some { o2 with status := OrderStatus.DELIVERED } ∧
      (verifyOrderPin db2 oid "").events =
        [Event.order_delivered oid o2.courierId o2.restaurantId
          o2.totalAmount o2.customerId]) := by
  constructor
  · exact ⟨_, rfl, rfl, rfl, rfl⟩
  · intro db2 oid o2 hfind hpin
    exact verifyOrderPin_match db2 oid "" o2 hfind hpin

/-- Witness for C7: the sample pending order, which has no courier and
the default empty pin, is delivered by supplying the empty string. -/
theorem createOrder_default_pin_allows_delivery_witness :
    sampleDb.findOrder "o1" = some sampleOrder ∧
    sampleOrder.pin_code = "" ∧ sampleOrder.courierId = "" ∧
    ((verifyOrderPin sampleDb "o1" "").result = .ok true ∧
     (verifyOrderPin sampleDb "o1" "").db.findOrder "o1" =
      some { sampleOrder with status := OrderStatus.DELIVERED } ∧
     (verifyOrderPin sampleDb "o1" "").events =
      [Event.order_delivered "o1" sampleOrder.courierId
        sampleOrder.restaurantId sampleOrder.totalAmount
        sampleOrder.customerId]) :=
  ⟨rfl, rfl, rfl, (createOrder_default_pin_allows_delivery emptyDb "w7"
    emptyItemsDto).2 sampleDb "o1" sampleOrder rfl rfl⟩

/-- C8: `createOrder` stores `totalAmount` equal to the sum over the
items of `price * quantity`, plus `deliveryFee` when `useLoyaltyPoints`
is false and without it when true. -/
theorem createOrder_total_amount (db : Db) (newId : String)
    (dto : CreateOrderDto) :
    ∃ o, (createOrder db newId dto).db.orders = db.orders ++ [o] ∧
      o.totalAmount = itemsTotal dto.items +
        (if dto.useLoyaltyPoints then 0 else dto.deliveryFee) ∧
      (createOrder db newId dto).events = [Event.order_created dto newId] ∧
      (createOrder db newId dto).result = .ok newId := by
  refine ⟨_, rfl, ?_, rfl, rfl⟩
  show (if dto.useLoyaltyPoints then
      dto.items.foldl (fun sum item => sum + item.price * (item.quantity : ℚ)) 0
    else
      dto.items.foldl (fun sum item => sum + item.price * (item.quantity : ℚ)) 0 +
        dto.deliveryFee) = _
  rw [foldl_add_eq_sum]
  by_cases h : dto.useLoyaltyPoints <;> simp [h]

/-- C9, counterexample: a call with an empty items array passes the
items validation (no decorator requires non-emptiness), creates an order
— with `totalAmount` equal to the delivery fee — and emits
`order_created`, contradicting the claim that no order is created and no
event is emitted. -/
theorem createOrder_empty_items_cex :
    validateCreateOrderItems emptyItemsDto = true ∧
    (createOrder emptyDb "o1" emptyItemsDto).db.orders.length = 1 ∧
    ((createOrder emptyDb "o1" emptyItemsDto).db.findOrder "o1").map
      Order.totalAmount = some 3 ∧
    (createOrder emptyDb "o1" emptyItemsDto).events =
      [Event.order_created emptyItemsDto "o1"] ∧
    (createOrder emptyDb "o1" emptyItemsDto).result = .ok "o1" := by
  refine ⟨rfl, rfl, ?_, rfl, rfl⟩
  norm_num [createOrder, Db.findOrder, emptyDb, emptyItemsDto]

/-- C9, amended: an empty items list is accepted: validation passes
vacuously and `createOrder` stores an order with `totalAmount` equal to
`deliveryFee` (or `0` with loyalty points) and emits `order_created`.
Per-item validation (positive quantity, non-negative price) does apply to
each present item. -/
theorem createOrder_empty_items_accepted (db : Db) (newId : String)
    (dto : CreateOrderDto) (h : dto.items = []) :
    validateCreateOrderItems dto = true ∧
    ∃ o, (createOrder db newId dto).db.orders = db.orders ++ [o] ∧
      o.totalAmount = (if dto.useLoyaltyPoints then 0 else dto.deliveryFee) ∧
      (createOrder db newId dto).events = [Event.order_created dto newId] := by
  refine ⟨by simp [validateCreateOrderItems, h], _, rfl, ?_, rfl⟩
  show (if dto.useLoyaltyPoints then
      dto.items.foldl (fun sum item => sum + item.price * (item.quantity : ℚ)) 0
    else
      dto.items.foldl (fun sum item => sum + item.price * (item.quantity : ℚ)) 0 +
        dto.deliveryFee) = _
  rw [h]
  by_cases hb : dto.useLoyaltyPoints <;> simp [hb]

/-- Witness for C9 (amended): the concrete empty-items dto is accepted
and stores `totalAmount = 3`, its delivery fee. -/
theorem createOrder_empty_items_accepted_witness :
    emptyItemsDto.items = [] ∧
    (validateCreateOrderItems emptyItemsDto = true ∧
     ∃ o, (createOrder emptyDb "o1" emptyItemsDto).db.orders =
        emptyDb.orders ++ [o] ∧
      o.totalAmount =
        (if emptyItemsDto.useLoyaltyPoints then 0 else emptyItemsDto.deliveryFee) ∧
      (createOrder emptyDb "o1" emptyItemsDto).events =
        [Event.order_created emptyItemsDto "o1"]) :=
  ⟨rfl, createOrder_empty_items_accepted emptyDb "o1" emptyItemsDto rfl⟩

/-- C10: for every value of the randomness source in `[0, 1)`, the
number `Math.floor(1000 + r * 9000)` lies in `[1000, 9999]`, so the PIN
string has exactly four characters, all decimal digits; and the order
`courierAssigned` persists carries exactly this PIN. -/
theorem generatePin_four_digits (r : ℚ) (h0 : 0 ≤ r) (h1 : r < 1) :
    1000 ≤ generatePinNat r ∧ generatePinNat r ≤ 9999 ∧
    (generatePin r).length = 4 ∧
    ((generatePin r).toList.all Char.isDigit = true) ∧
    (∀ db oid cid o2, (courierAssigned db r oid cid).result = .ok o2 →
      o2.pin_code = generatePin r) := by
  have hfl : (1000 : ℤ) ≤ ⌊(1000 : ℚ) + r * 9000⌋ := by
    rw [Int.le_floor]
    push_cast
    nlinarith
  have hfu : ⌊(1000 : ℚ) + r * 9000⌋ < 10000 := by
    rw [Int.floor_lt]
    push_cast
    nlinarith
  have hl : 1000 ≤ generatePinNat r := by unfold generatePinNat; omega
  have hu : generatePinNat r ≤ 9999 := by unfold generatePinNat; omega
  have hne : generatePinNat r ≠ 0 := by omega
  have hlog : Nat.log 10 (generatePinNat r) = 3 := by
    apply Nat.log_eq_of_pow_le_of_lt_pow
    · norm_num
      omega
    · norm_num
      omega
  have hlen : (generatePin r).length = 4 := by
    show (((Nat.digits 10 (generatePinNat r)).reverse).map digitChar).length = 4
    rw [List.length_map, List.length_reverse,
      Nat.digits_len 10 _ (by norm_num) hne, hlog]
  have hdig : ((generatePin r).toList.all Char.isDigit = true) := by
    show (((Nat.digits 10 (generatePinNat r)).reverse).map digitChar).all
      Char.isDigit = true
    rw [List.all_eq_true]
    intro c hc
    rw [List.mem_map] at hc
    obtain ⟨d, hd, rfl⟩ := hc
    rw [List.mem_reverse] at hd
    have hd10 : d < 10 := Nat.digits_lt_base (by norm_num) hd
    interval_cases d <;> decide
  refine ⟨hl, hu, hlen, hdig, ?_⟩
  intro db oid cid o2 h
  unfold courierAssigned at h
  rcases hdb : db.findOrder oid with _ | o
  · rw [hdb] at h
    simp at h
  · rw [hdb] at h
    simp only [Except.ok.injEq] at h
    rw [← h]

/-- Witness for C10: at randomness value `0` the PIN is in range, four
digits long, all digits. -/
theorem generatePin_four_digits_witness :
    ((0 : ℚ) ≤ 0 ∧ (0 : ℚ) < 1) ∧
    (1000 ≤ generatePinNat 0 ∧ generatePinNat 0 ≤ 9999 ∧
     (generatePin 0).length = 4 ∧
     ((generatePin 0).toList.all Char.isDigit = true) ∧
     (∀ db oid cid o2, (courierAssigned db 0 oid cid).result = .ok o2 →
       o2.pin_code = generatePin 0)) :=
  ⟨⟨le_refl 0, zero_lt_one⟩, generatePin_four_digits 0 (le_refl 0) zero_lt_one⟩

end OrdersMS
